import Mathlib

/-!
Verification of the native cipher engine of ApiaryProxy
(src/native/src/main/c/jni_cipher_openssl.c).

The C file is a thin JNI wrapper around OpenSSL: `init` validates a 16-byte
key, allocates an `EVP_CIPHER_CTX`, and calls
`EVP_CipherInit(ctx, EVP_aes_128_cfb8(), key, key, encrypt)` — AES-128 in
CFB8 mode with the key reused as the IV; `process` calls `EVP_CipherUpdate`
on a byte region; `free` releases the context.

The embedding below models the cipher itself (AES-128, FIPS-197, and the
CFB8 byte-feedback mode, both of which the wrapper obtains from OpenSSL)
together with the wrapper's own control flow: key-length validation,
allocation failure, the (dead) key-copy exception branch, backend
initialization failure with internal release, and the fact that
`EVP_CipherUpdate`'s return value is discarded.  Bytes are natural numbers;
all primitives keep values below 256 when their inputs are bytes, and the
stream theorems hold for arbitrary naturals, hence in particular for bytes.
-/

set_option autoImplicit false

namespace VelocityNatives

/-- The AES S-box (FIPS-197, figure 7) as a flat table of 256 byte values. -/
def sbox : List Nat :=
  [0x63, 0x7c, 0x77, 0x7b, 0xf2, 0x6b, 0x6f, 0xc5, 0x30, 0x01, 0x67, 0x2b, 0xfe, 0xd7, 0xab, 0x76,
   0xca, 0x82, 0xc9, 0x7d, 0xfa, 0x59, 0x47, 0xf0, 0xad, 0xd4, 0xa2, 0xaf, 0x9c, 0xa4, 0x72, 0xc0,
   0xb7, 0xfd, 0x93, 0x26, 0x36, 0x3f, 0xf7, 0xcc, 0x34, 0xa5, 0xe5, 0xf1, 0x71, 0xd8, 0x31, 0x15,
   0x04, 0xc7, 0x23, 0xc3, 0x18, 0x96, 0x05, 0x9a, 0x07, 0x12, 0x80, 0xe2, 0xeb, 0x27, 0xb2, 0x75,
   0x09, 0x83, 0x2c, 0x1a, 0x1b, 0x6e, 0x5a, 0xa0, 0x52, 0x3b, 0xd6, 0xb3, 0x29, 0xe3, 0x2f, 0x84,
   0x53, 0xd1, 0x00, 0xed, 0x20, 0xfc, 0xb1, 0x5b, 0x6a, 0xcb, 0xbe, 0x39, 0x4a, 0x4c, 0x58, 0xcf,
   0xd0, 0xef, 0xaa, 0xfb, 0x43, 0x4d, 0x33, 0x85, 0x45, 0xf9, 0x02, 0x7f, 0x50, 0x3c, 0x9f, 0xa8,
   0x51, 0xa3, 0x40, 0x8f, 0x92, 0x9d, 0x38, 0xf5, 0xbc, 0xb6, 0xda, 0x21, 0x10, 0xff, 0xf3, 0xd2,
   0xcd, 0x0c, 0x13, 0xec, 0x5f, 0x97, 0x44, 0x17, 0xc4, 0xa7, 0x7e, 0x3d, 0x64, 0x5d, 0x19, 0x73,
   0x60, 0x81, 0x4f, 0xdc, 0x22, 0x2a, 0x90, 0x88, 0x46, 0xee, 0xb8, 0x14, 0xde, 0x5e, 0x0b, 0xdb,
   0xe0, 0x32, 0x3a, 0x0a, 0x49, 0x06, 0x24, 0x5c, 0xc2, 0xd3, 0xac, 0x62, 0x91, 0x95, 0xe4, 0x79,
   0xe7, 0xc8, 0x37, 0x6d, 0x8d, 0xd5, 0x4e, 0xa9, 0x6c, 0x56, 0xf4, 0xea, 0x65, 0x7a, 0xae, 0x08,
   0xba, 0x78, 0x25, 0x2e, 0x1c, 0xa6, 0xb4, 0xc6, 0xe8, 0xdd, 0x74, 0x1f, 0x4b, 0xbd, 0x8b, 0x8a,
   0x70, 0x3e, 0xb5, 0x66, 0x48, 0x03, 0xf6, 0x0e, 0x61, 0x35, 0x57, 0xb9, 0x86, 0xc1, 0x1d, 0x9e,
   0xe1, 0xf8, 0x98, 0x11, 0x69, 0xd9, 0x8e, 0x94, 0x9b, 0x1e, 0x87, 0xe9, 0xce, 0x55, 0x28, 0xdf,
   0x8c, 0xa1, 0x89, 0x0d, 0xbf, 0xe6, 0x42, 0x68, 0x41, 0x99, 0x2d, 0x0f, 0xb0, 0x54, 0xbb, 0x16]

/-- S-box substitution of one byte. -/
def sb (b : Nat) : Nat := sbox.getD b 0

/-- Multiplication by x (0x02) in GF(2^8) modulo x^8 + x^4 + x^3 + x + 1.
For b < 256 the xor with 0x11b clears the overflow bit, so the result is
again below 256. -/
def xtime (b : Nat) : Nat :=
  if b < 128 then 2 * b else (2 * b) ^^^ 0x11b

/-- Multiplication by 0x03 in GF(2^8). -/
def mul3 (b : Nat) : Nat := xtime b ^^^ b

/-- One-byte left rotation of a 4-byte word (key schedule RotWord). -/
def rotWord (w : List Nat) : List Nat := w.drop 1 ++ w.take 1

/-- S-box substitution of each byte of a word (key schedule SubWord). -/
def subWord (w : List Nat) : List Nat := w.map sb

/-- Bytewise xor of two equal-length byte lists. -/
def xorBytes (a b : List Nat) : List Nat := List.zipWith (fun x y => x ^^^ y) a b

/-- The AES round constants for AES-128 key expansion. -/
def rcon : List Nat := [0x01, 0x02, 0x04, 0x08, 0x10, 0x20, 0x40, 0x80, 0x1b, 0x36]

/-- Key expansion step: extends a list of 4-byte words by `n` further words
following FIPS-197 section 5.2. -/
def expandWords : List (List Nat) → Nat → List (List Nat)
  | ws, 0 => ws
  | ws, n + 1 =>
    let i := ws.length
    let prev := ws.getD (i - 1) []
    let temp :=
      if i % 4 == 0 then
        xorBytes (subWord (rotWord prev)) [rcon.getD (i / 4 - 1) 0, 0, 0, 0]
      else prev
    expandWords (ws ++ [xorBytes (ws.getD (i - 4) []) temp]) n

/-- The full AES-128 key schedule: 44 four-byte words from a 16-byte key. -/
def keySchedule (key : List Nat) : List (List Nat) :=
  expandWords [key.take 4, (key.drop 4).take 4, (key.drop 8).take 4, (key.drop 12).take 4] 40

/-- Round key `r` as a flat 16-byte list (column-major, as FIPS-197 lays
out words into state columns). -/
def roundKey (ks : List (List Nat)) (r : Nat) : List Nat :=
  ks.getD (4 * r) [] ++ ks.getD (4 * r + 1) [] ++ ks.getD (4 * r + 2) [] ++ ks.getD (4 * r + 3) []

/-- AddRoundKey on a flat 16-byte state. -/
def addRoundKey (s k : List Nat) : List Nat := xorBytes s k

/-- SubBytes on a flat 16-byte state. -/
def subBytes (s : List Nat) : List Nat := s.map sb

/-- ShiftRows on a flat column-major 16-byte state: the byte at row r,
column c comes from row r, column (c + r) mod 4. -/
def shiftRows (s : List Nat) : List Nat :=
  (List.range 16).map fun i => s.getD (i % 4 + 4 * ((i / 4 + i % 4) % 4)) 0

/-- MixColumns applied to a single 4-byte column. -/
def mixColumn (a : List Nat) : List Nat :=
  let a0 := a.getD 0 0
  let a1 := a.getD 1 0
  let a2 := a.getD 2 0
  let a3 := a.getD 3 0
  [xtime a0 ^^^ mul3 a1 ^^^ a2 ^^^ a3,
   a0 ^^^ xtime a1 ^^^ mul3 a2 ^^^ a3,
   a0 ^^^ a1 ^^^ xtime a2 ^^^ mul3 a3,
   mul3 a0 ^^^ a1 ^^^ a2 ^^^ xtime a3]

/-- MixColumns on a flat 16-byte state. -/
def mixColumns (s : List Nat) : List Nat :=
  mixColumn (s.take 4) ++ mixColumn ((s.drop 4).take 4) ++
    mixColumn ((s.drop 8).take 4) ++ mixColumn ((s.drop 12).take 4)

/-- One main AES round. -/
def aesRound (k s : List Nat) : List Nat := addRoundKey (mixColumns (shiftRows (subBytes s))) k

/-- The final AES round (no MixColumns). -/
def aesFinalRound (k s : List Nat) : List Nat := addRoundKey (shiftRows (subBytes s)) k

/-- AES-128 block encryption (FIPS-197): the forward cipher on one 16-byte
block.  CFB8 uses only this forward direction, for decryption as well. -/
def aes128Block (key block : List Nat) : List Nat :=
  let ks := keySchedule key
  let s0 := addRoundKey block (roundKey ks 0)
  let s9 := (List.range 9).foldl (fun s r => aesRound (roundKey ks (r + 1)) s) s0
  aesFinalRound (roundKey ks 10) s9

/-- The state behind an `EVP_CIPHER_CTX` handle produced by `init`: the
AES key, the fixed cipher direction (`encrypt` is the C function's
`jboolean` argument), and the evolving CFB8 feedback register, which
`EVP_CipherInit` seeds with the IV. -/
structure CipherCtx where
  key : List Nat
  encrypt : Bool
  reg : List Nat
  deriving DecidableEq

/-- One byte of CFB8: the keystream byte is the leading byte of the AES
encryption of the feedback register; the output is the input xor the
keystream; the register shifts left by one byte and absorbs the
ciphertext byte — the output when encrypting, the input when decrypting. -/
def processByte (ctx : CipherCtx) (b : Nat) : Nat × CipherCtx :=
  let ks := (aes128Block ctx.key ctx.reg).getD 0 0
  let out := b ^^^ ks
  let fb := if ctx.encrypt then out else b
  (out, { ctx with reg := ctx.reg.drop 1 ++ [fb] })

/-- CFB8 over a byte list: the semantics of
`EVP_CipherUpdate(ctx, dest, &len, source, len)` for a CFB8 cipher —
exactly one output byte per input byte, the context advancing bytewise. -/
def process (ctx : CipherCtx) : List Nat → List Nat × CipherCtx
  | [] => ([], ctx)
  | b :: bs =>
    let r := processByte ctx b
    let rest := process r.2 bs
    (r.1 :: rest.1, rest.2)

/-- The typed failure conditions the wrapper signals as Java exceptions:
`InvalidKeyLength` is `IllegalArgumentException` ("cipher not 16 bytes"),
`ResourceExhausted` is `OutOfMemoryError` ("allocate cipher"),
`KeyCopyFailure` is a pending `ArrayIndexOutOfBoundsException` left by
`GetByteArrayRegion`, and `BackendInitFailure` is
`GeneralSecurityException` ("openssl initialize cipher").
`BackendProcessingFailure` is the condition the specification assigns to a
failed `EVP_CipherUpdate`. -/
inductive CipherError where
  | InvalidKeyLength
  | ResourceExhausted
  | KeyCopyFailure
  | BackendInitFailure
  | BackendProcessingFailure
  deriving DecidableEq

/-- The environment-controlled outcomes of the two fallible backend calls
made during `init`: `newCtx` is the address `EVP_CIPHER_CTX_new` returns
(0 models NULL, i.e. allocation failure), and `cipherInitOk` is whether
`EVP_CipherInit` returns 1. -/
structure Env where
  newCtx : Nat
  cipherInitOk : Bool
  deriving DecidableEq

/-- The observable outcome of one `init` call: the `jlong` the function
returns, the exception surfaced to the caller (if any), whether
`EVP_CIPHER_CTX_new` allocated a context, whether `EVP_CIPHER_CTX_free`
released it before returning, and the cipher state stored behind the
returned handle on success. -/
structure InitTrace where
  ret : Nat
  thrown : Option CipherError
  allocated : Bool
  freed : Bool
  ctx : Option CipherCtx
  deriving DecidableEq

/-- Shallow embedding of
`Java_com_velocitypowered_natives_encryption_OpenSslCipherImpl_init`:
reject keys whose length is not 16 before any allocation; allocate the
context (failing with `OutOfMemoryError` on NULL); copy the key bytes —
`GetByteArrayRegion(key, 0, keyLen, …)` throws only if the region
`[0, keyLen)` exceeds the array length `keyLen`, so the guard is written
with that (always-false) JNI bounds condition and the branch, which would
return without freeing `ctx`, is dead; then
`EVP_CipherInit(ctx, EVP_aes_128_cfb8(), key, key, encrypt)` seeds an
AES-128-CFB8 context with the key doubling as the IV, and on failure the
context is freed before the exception is raised. -/
def Java_com_velocitypowered_natives_encryption_OpenSslCipherImpl_init
    (key : List Nat) (encrypt : Bool) (env : Env) : InitTrace :=
  if key.length ≠ 16 then
    { ret := 0, thrown := some .InvalidKeyLength, allocated := false, freed := false, ctx := none }
  else if env.newCtx = 0 then
    { ret := 0, thrown := some .ResourceExhausted, allocated := false, freed := false, ctx := none }
  else if 0 + key.length > key.length then
    { ret := 0, thrown := some .KeyCopyFailure, allocated := true, freed := false, ctx := none }
  else if ¬env.cipherInitOk then
    { ret := 0, thrown := some .BackendInitFailure, allocated := true, freed := true, ctx := none }
  else
    { ret := env.newCtx, thrown := none, allocated := true, freed := false,
      ctx := some { key := key, encrypt := encrypt, reg := key } }

/-- The observable outcome of one `process` call: the bytes written to
`dest`, the cipher state after the call, and the error surfaced to the
caller (if any). -/
structure ProcTrace where
  output : List Nat
  ctx : CipherCtx
  thrown : Option CipherError
  deriving DecidableEq

/-- Shallow embedding of
`Java_com_velocitypowered_natives_encryption_OpenSslCipherImpl_process`:
a single `EVP_CipherUpdate(ptr, dest, &len, source, len)` whose return
value is discarded — the C function has return type `void` and raises no
exception, so `thrown` is `none` on both branches.  When the update
succeeds the destination holds the CFB8 transform of the source; when the
backend reports failure the destination contents are unspecified (modelled
as empty, with the state left as it was), and no error reaches the
caller either way. -/
def Java_com_velocitypowered_natives_encryption_OpenSslCipherImpl_process
    (ctx : CipherCtx) (input : List Nat) (updateOk : Bool) : ProcTrace :=
  if updateOk then
    let r := process ctx input
    { output := r.1, ctx := r.2, thrown := none }
  else
    { output := [], ctx := ctx, thrown := none }

/-- Sequential processing of a list of chunks through one context,
concatenating the outputs — the caller-side pattern of repeated `process`
calls over one logical stream. -/
def processChunks (ctx : CipherCtx) : List (List Nat) → List Nat × CipherCtx
  | [] => ([], ctx)
  | c :: cs =>
    let r := process ctx c
    let rest := processChunks r.2 cs
    (r.1 ++ rest.1, rest.2)

/-- A successful `init` stores exactly the key, the direction, and the key
again as the initial feedback register behind the returned handle. -/
theorem init_ctx_some (key : List Nat) (e : Bool) (env : Env) (c : CipherCtx)
    (h : (Java_com_velocitypowered_natives_encryption_OpenSslCipherImpl_init key e env).ctx =
      some c) :
    c = { key := key, encrypt := e, reg := key } := by
  unfold Java_com_velocitypowered_natives_encryption_OpenSslCipherImpl_init at h
  split_ifs at h
  all_goals simp_all

/-- CFB8 produces exactly one output byte per input byte. -/
theorem process_length (ctx : CipherCtx) (input : List Nat) :
    (process ctx input).1.length = input.length := by
  induction input generalizing ctx with
  | nil => rfl
  | cons b bs ih => simp [process, ih]

/-- Processing a concatenation equals processing the two parts in
sequence, threading the context. -/
theorem process_append (a b : List Nat) : ∀ ctx : CipherCtx,
    process ctx (a ++ b) =
      ((process ctx a).1 ++ (process (process ctx a).2 b).1, (process (process ctx a).2 b).2) := by
  induction a with
  | nil => intro ctx; rfl
  | cons x xs ih => intro ctx; simp [process, ih]

/-- Decrypting with the feedback register that encrypted recovers the
plaintext: both directions draw the same keystream byte from the same
register, and both feed the ciphertext byte back. -/
theorem cfb8_roundtrip (key : List Nat) (pt : List Nat) : ∀ reg : List Nat,
    (process { key := key, encrypt := false, reg := reg }
      (process { key := key, encrypt := true, reg := reg } pt).1).1 = pt := by
  induction pt with
  | nil => intro reg; rfl
  | cons b bs ih => intro reg; simp [process, processByte, Nat.xor_cancel_right, ih]

/-- Processing chunk by chunk through one context equals processing the
flattened stream in one call. -/
theorem processChunks_eq_process_flatten (chunks : List (List Nat)) : ∀ ctx : CipherCtx,
    (processChunks ctx chunks).1 = (process ctx chunks.flatten).1 := by
  induction chunks with
  | nil => intro ctx; rfl
  | cons c cs ih => intro ctx; simp [processChunks, process_append, ih]

set_option maxRecDepth 10000 in
/-- Known-answer test for the AES-128 block primitive: the FIPS-197
appendix C.1 vector, checked by kernel evaluation. -/
theorem aes128Block_fips197_kat :
    aes128Block
      [0x00, 0x01, 0x02, 0x03, 0x04, 0x05, 0x06, 0x07,
       0x08, 0x09, 0x0a, 0x0b, 0x0c, 0x0d, 0x0e, 0x0f]
      [0x00, 0x11, 0x22, 0x33, 0x44, 0x55, 0x66, 0x77,
       0x88, 0x99, 0xaa, 0xbb, 0xcc, 0xdd, 0xee, 0xff] =
    [0x69, 0xc4, 0xe0, 0xd8, 0x6a, 0x7b, 0x04, 0x30,
     0xd8, 0xcd, 0xb7, 0x80, 0x70, 0xb4, 0xc5, 0x5a] := by decide

set_option maxRecDepth 10000 in
/-- Known-answer test for the CFB8 encrypt direction: the first two byte
segments of NIST SP 800-38A F.3.7 (CFB8-AES128.Encrypt). -/
theorem cfb8_encrypt_nist_kat :
    (process
      { key := [0x2b, 0x7e, 0x15, 0x16, 0x28, 0xae, 0xd2, 0xa6,
                0xab, 0xf7, 0x15, 0x88, 0x09, 0xcf, 0x4f, 0x3c],
        encrypt := true,
        reg := [0x00, 0x01, 0x02, 0x03, 0x04, 0x05, 0x06, 0x07,
                0x08, 0x09, 0x0a, 0x0b, 0x0c, 0x0d, 0x0e, 0x0f] }
      [0x6b, 0xc1]).1 = [0x3b, 0x79] := by decide

set_option maxRecDepth 10000 in
/-- Known-answer test for the CFB8 decrypt direction: the first two byte
segments of NIST SP 800-38A F.3.8 (CFB8-AES128.Decrypt). -/
theorem cfb8_decrypt_nist_kat :
    (process
      { key := [0x2b, 0x7e, 0x15, 0x16, 0x28, 0xae, 0xd2, 0xa6,
                0xab, 0xf7, 0x15, 0x88, 0x09, 0xcf, 0x4f, 0x3c],
        encrypt := false,
        reg := [0x00, 0x01, 0x02, 0x03, 0x04, 0x05, 0x06, 0x07,
                0x08, 0x09, 0x0a, 0x0b, 0x0c, 0x0d, 0x0e, 0x0f] }
      [0x3b, 0x79]).1 = [0x6b, 0xc1] := by decide

/-- C1: for every valid 16-byte key, constructing an Encrypt context and a
Decrypt context with that same key, processing a plaintext through the
first and the resulting ciphertext through the second reproduces the
original plaintext exactly (round-trip law). -/
theorem C1_encrypt_then_decrypt_roundtrip (key pt : List Nat) (env1 env2 : Env)
    (enc dec : CipherCtx)
    (h1 : (Java_com_velocitypowered_natives_encryption_OpenSslCipherImpl_init
      key true env1).ctx = some enc)
    (h2 : (Java_com_velocitypowered_natives_encryption_OpenSslCipherImpl_init
      key false env2).ctx = some dec) :
    (process dec (process enc pt).1).1 = pt := by
  rw [init_ctx_some key true env1 enc h1, init_ctx_some key false env2 dec h2]
  exact cfb8_roundtrip key pt key

/-- Witness for C1: the all-zero 16-byte key and the 13-byte plaintext
"Hello, world!" of the spec's concrete scenario. -/
theorem C1_encrypt_then_decrypt_roundtrip_witness :
    (Java_com_velocitypowered_natives_encryption_OpenSslCipherImpl_init
      (List.replicate 16 0) true { newCtx := 1, cipherInitOk := true }).ctx =
      some { key := List.replicate 16 0, encrypt := true, reg := List.replicate 16 0 } ∧
    (Java_com_velocitypowered_natives_encryption_OpenSslCipherImpl_init
      (List.replicate 16 0) false { newCtx := 2, cipherInitOk := true }).ctx =
      some { key := List.replicate 16 0, encrypt := false, reg := List.replicate 16 0 } ∧
    (process { key := List.replicate 16 0, encrypt := false, reg := List.replicate 16 0 }
      (process { key := List.replicate 16 0, encrypt := true, reg := List.replicate 16 0 }
        [72, 101, 108, 108, 111, 44, 32, 87, 111, 114, 108, 100, 33]).1).1 =
      [72, 101, 108, 108, 111, 44, 32, 87, 111, 114, 108, 100, 33] :=
  ⟨by decide, by decide,
    C1_encrypt_then_decrypt_roundtrip (List.replicate 16 0)
      [72, 101, 108, 108, 111, 44, 32, 87, 111, 114, 108, 100, 33]
      { newCtx := 1, cipherInitOk := true } { newCtx := 2, cipherInitOk := true }
      _ _ (by decide) (by decide)⟩

/-- C2: for every key whose length is not exactly 16 bytes, `init` throws
`IllegalArgumentException` (the `InvalidKeyLength` condition), returns
handle 0, allocates no cipher context and frees nothing. -/
theorem C2_invalid_key_length_rejected (key : List Nat) (e : Bool) (env : Env)
    (h : key.length ≠ 16) :
    Java_com_velocitypowered_natives_encryption_OpenSslCipherImpl_init key e env =
      { ret := 0, thrown := some CipherError.InvalidKeyLength, allocated := false,
        freed := false, ctx := none } := by
  unfold Java_com_velocitypowered_natives_encryption_OpenSslCipherImpl_init
  rw [if_pos h]

/-- Witness for C2: the empty key. -/
theorem C2_invalid_key_length_rejected_witness :
    ([] : List Nat).length ≠ 16 ∧
    Java_com_velocitypowered_natives_encryption_OpenSslCipherImpl_init []
        true { newCtx := 1, cipherInitOk := true } =
      { ret := 0, thrown := some CipherError.InvalidKeyLength, allocated := false,
        freed := false, ctx := none } :=
  ⟨by decide,
    C2_invalid_key_length_rejected [] true { newCtx := 1, cipherInitOk := true } (by decide)⟩

/-- C3: on every `init` failure path reached after the cipher context has
been allocated, the context is freed before the error is raised — a
failed construct never leaks the context. -/
theorem C3_failed_init_frees_context (key : List Nat) (e : Bool) (env : Env)
    (ha : (Java_com_velocitypowered_natives_encryption_OpenSslCipherImpl_init
      key e env).allocated = true)
    (ht : (Java_com_velocitypowered_natives_encryption_OpenSslCipherImpl_init
      key e env).thrown.isSome = true) :
    (Java_com_velocitypowered_natives_encryption_OpenSslCipherImpl_init
      key e env).freed = true := by
  unfold Java_com_velocitypowered_natives_encryption_OpenSslCipherImpl_init at ha ht ⊢
  split_ifs with h1 h2 h3 h4
  all_goals simp_all

/-- Witness for C3: a valid key with a failing `EVP_CipherInit`. -/
theorem C3_failed_init_frees_context_witness :
    (Java_com_velocitypowered_natives_encryption_OpenSslCipherImpl_init
      (List.replicate 16 0) true { newCtx := 5, cipherInitOk := false }).allocated = true ∧
    (Java_com_velocitypowered_natives_encryption_OpenSslCipherImpl_init
      (List.replicate 16 0) true { newCtx := 5, cipherInitOk := false }).thrown.isSome = true ∧
    (Java_com_velocitypowered_natives_encryption_OpenSslCipherImpl_init
      (List.replicate 16 0) true { newCtx := 5, cipherInitOk := false }).freed = true :=
  ⟨by decide, by decide,
    C3_failed_init_frees_context (List.replicate 16 0) true
      { newCtx := 5, cipherInitOk := false } (by decide) (by decide)⟩

/-- C4 counterexample: with a live context and a failing backend update,
the native `process` call surfaces nothing to its caller — in particular
not `BackendProcessingFailure` — because the C function ignores
`EVP_CipherUpdate`'s return value and has return type `void`. -/
theorem C4_counterexample_update_error_swallowed :
    (Java_com_velocitypowered_natives_encryption_OpenSslCipherImpl_process
      { key := List.replicate 16 0, encrypt := true, reg := List.replicate 16 0 }
      [1, 2, 3] false).thrown = none ∧
    (Java_com_velocitypowered_natives_encryption_OpenSslCipherImpl_process
      { key := List.replicate 16 0, encrypt := true, reg := List.replicate 16 0 }
      [1, 2, 3] false).thrown ≠ some CipherError.BackendProcessingFailure := by
  constructor
  · rfl
  · decide

/-- C4 as amended: the native `process` call never surfaces any error to
its caller, whether or not the backend update succeeds; the
`BackendProcessingFailure` treatment is the spec's strengthening for a
rewrite, not the behavior of this code. -/
theorem C4_process_never_surfaces_error (ctx : CipherCtx) (input : List Nat)
    (updateOk : Bool) :
    (Java_com_velocitypowered_natives_encryption_OpenSslCipherImpl_process
      ctx input updateOk).thrown = none := by
  cases updateOk <;> rfl

/-- C5: for every 16-byte key and mode, a successful `init` seeds the
cipher context with the key as the AES-128 key, the same key as the
initial CFB8 feedback register (the IV), and the direction fixed to the
given mode; the first processed byte is xored against the leading byte of
the AES-128 encryption of that register. -/
theorem C5_init_aes128_cfb8_key_as_iv (key : List Nat) (e : Bool) (env : Env)
    (hk : key.length = 16) (hc : env.newCtx ≠ 0) (hi : env.cipherInitOk = true) :
    (Java_com_velocitypowered_natives_encryption_OpenSslCipherImpl_init key e env).ctx =
      some { key := key, encrypt := e, reg := key } ∧
    (process { key := key, encrypt := e, reg := key } [0]).1 =
      [(aes128Block key key).getD 0 0] := by
  constructor
  · unfold Java_com_velocitypowered_natives_encryption_OpenSslCipherImpl_init
    rw [if_neg (by omega), if_neg hc, if_neg (by omega), if_neg (by simp [hi])]
  · simp [process, processByte]

/-- Witness for C5: the all-zero 16-byte key in encrypt mode. -/
theorem C5_init_aes128_cfb8_key_as_iv_witness :
    (List.replicate 16 0).length = 16 ∧
    ({ newCtx := 1, cipherInitOk := true } : Env).newCtx ≠ 0 ∧
    ({ newCtx := 1, cipherInitOk := true } : Env).cipherInitOk = true ∧
    ((Java_com_velocitypowered_natives_encryption_OpenSslCipherImpl_init
      (List.replicate 16 0) true { newCtx := 1, cipherInitOk := true }).ctx =
      some { key := List.replicate 16 0, encrypt := true, reg := List.replicate 16 0 } ∧
    (process { key := List.replicate 16 0, encrypt := true, reg := List.replicate 16 0 }
      [0]).1 = [(aes128Block (List.replicate 16 0) (List.replicate 16 0)).getD 0 0]) :=
  ⟨by decide, by decide, by decide,
    C5_init_aes128_cfb8_key_as_iv (List.replicate 16 0) true
      { newCtx := 1, cipherInitOk := true } (by decide) (by decide) (by decide)⟩

/-- C6: for every context and every input, a (successful) `process` call
writes exactly one output byte per input byte — no padding. -/
theorem C6_output_length_equals_input_length (ctx : CipherCtx) (input : List Nat) :
    (Java_com_velocitypowered_natives_encryption_OpenSslCipherImpl_process
      ctx input true).output.length = input.length := by
  simp [Java_com_velocitypowered_natives_encryption_OpenSslCipherImpl_process, process_length]

/-- C7: processing a stream chunk by chunk through one freshly
constructed context yields the same concatenated ciphertext as processing
the flattened stream in a single call on another freshly constructed
context with the same key and mode. -/
theorem C7_streaming_equivalence (key : List Nat) (e : Bool) (env1 env2 : Env)
    (c1 c2 : CipherCtx) (chunks : List (List Nat))
    (h1 : (Java_com_velocitypowered_natives_encryption_OpenSslCipherImpl_init
      key e env1).ctx = some c1)
    (h2 : (Java_com_velocitypowered_natives_encryption_OpenSslCipherImpl_init
      key e env2).ctx = some c2) :
    (processChunks c1 chunks).1 = (process c2 chunks.flatten).1 := by
  rw [init_ctx_some key e env1 c1 h1, init_ctx_some key e env2 c2 h2]
  exact processChunks_eq_process_flatten chunks _

/-- Witness for C7: the all-zero key with the chunking [[72, 101], [108], []]. -/
theorem C7_streaming_equivalence_witness :
    (Java_com_velocitypowered_natives_encryption_OpenSslCipherImpl_init
      (List.replicate 16 0) true { newCtx := 1, cipherInitOk := true }).ctx =
      some { key := List.replicate 16 0, encrypt := true, reg := List.replicate 16 0 } ∧
    (Java_com_velocitypowered_natives_encryption_OpenSslCipherImpl_init
      (List.replicate 16 0) true { newCtx := 2, cipherInitOk := true }).ctx =
      some { key := List.replicate 16 0, encrypt := true, reg := List.replicate 16 0 } ∧
    (processChunks { key := List.replicate 16 0, encrypt := true, reg := List.replicate 16 0 }
      [[72, 101], [108], []]).1 =
    (process { key := List.replicate 16 0, encrypt := true, reg := List.replicate 16 0 }
      ([[72, 101], [108], []] : List (List Nat)).flatten).1 :=
  ⟨by decide, by decide,
    C7_streaming_equivalence (List.replicate 16 0) true
      { newCtx := 1, cipherInitOk := true } { newCtx := 2, cipherInitOk := true }
      _ _ [[72, 101], [108], []] (by decide) (by decide)⟩

/-- C8: a zero-length `process` call writes nothing, leaves the cipher
state exactly as it was, and therefore every subsequent `process` call
behaves as if the zero-length call had not happened. -/
theorem C8_zero_length_process_is_noop (ctx : CipherCtx) :
    (Java_com_velocitypowered_natives_encryption_OpenSslCipherImpl_process
      ctx [] true).output = [] ∧
    (Java_com_velocitypowered_natives_encryption_OpenSslCipherImpl_process
      ctx [] true).ctx = ctx ∧
    ∀ input : List Nat,
      process (Java_com_velocitypowered_natives_encryption_OpenSslCipherImpl_process
        ctx [] true).ctx input = process ctx input :=
  ⟨rfl, rfl, fun _ => rfl⟩

/-- C9: two independently constructed encrypt contexts built from the
same key produce byte-identical ciphertext on the same plaintext — the
key alone (which also fixes the IV) determines the output. -/
theorem C9_same_key_same_ciphertext (key pt : List Nat) (env1 env2 : Env)
    (c1 c2 : CipherCtx)
    (h1 : (Java_com_velocitypowered_natives_encryption_OpenSslCipherImpl_init
      key true env1).ctx = some c1)
    (h2 : (Java_com_velocitypowered_natives_encryption_OpenSslCipherImpl_init
      key true env2).ctx = some c2) :
    (process c1 pt).1 = (process c2 pt).1 := by
  rw [init_ctx_some key true env1 c1 h1, init_ctx_some key true env2 c2 h2]

/-- Witness for C9: the all-ones 16-byte key of the spec's concrete
scenario with the plaintext "Hello, world!". -/
theorem C9_same_key_same_ciphertext_witness :
    (Java_com_velocitypowered_natives_encryption_OpenSslCipherImpl_init
      (List.replicate 16 1) true { newCtx := 1, cipherInitOk := true }).ctx =
      some { key := List.replicate 16 1, encrypt := true, reg := List.replicate 16 1 } ∧
    (Java_com_velocitypowered_natives_encryption_OpenSslCipherImpl_init
      (List.replicate 16 1) true { newCtx := 2, cipherInitOk := true }).ctx =
      some { key := List.replicate 16 1, encrypt := true, reg := List.replicate 16 1 } ∧
    (process { key := List.replicate 16 1, encrypt := true, reg := List.replicate 16 1 }
      [72, 101, 108, 108, 111, 44, 32, 87, 111, 114, 108, 100, 33]).1 =
    (process { key := List.replicate 16 1, encrypt := true, reg := List.replicate 16 1 }
      [72, 101, 108, 108, 111, 44, 32, 87, 111, 114, 108, 100, 33]).1 :=
  ⟨by decide, by decide,
    C9_same_key_same_ciphertext (List.replicate 16 1)
      [72, 101, 108, 108, 111, 44, 32, 87, 111, 114, 108, 100, 33]
      { newCtx := 1, cipherInitOk := true } { newCtx := 2, cipherInitOk := true }
      _ _ (by decide) (by decide)⟩

/-- C10: `init` returns handle 0 exactly when it fails (throws), and a
nonzero handle is returned only with the trace of a fully successful
construction — so a nonzero return always denotes a valid, ready-to-use
context and 0 never does. -/
theorem C10_nonzero_handle_iff_success (key : List Nat) (e : Bool) (env : Env) :
    ((Java_com_velocitypowered_natives_encryption_OpenSslCipherImpl_init
      key e env).ret = 0 ↔
      (Java_com_velocitypowered_natives_encryption_OpenSslCipherImpl_init
        key e env).thrown.isSome = true) ∧
    ((Java_com_velocitypowered_natives_encryption_OpenSslCipherImpl_init
      key e env).ret = 0 ∨
      Java_com_velocitypowered_natives_encryption_OpenSslCipherImpl_init key e env =
        { ret := env.newCtx, thrown := none, allocated := true, freed := false,
          ctx := some { key := key, encrypt := e, reg := key } }) := by
  unfold Java_com_velocitypowered_natives_encryption_OpenSslCipherImpl_init
  split_ifs with h1 h2 h3 h4
  all_goals simp_all

end VelocityNatives
